import Mathlib

/-!
Shallow embedding of the `check-whois` repository (files `check-whois.py` and
`filipUtils.py`) in Lean 4, together with theorems settling the frozen claims
about its natural-language specification.

The program reads candidate phrases, normalizes each into a domain label,
queries the external `whois` binary with retry/backoff, and appends free
domains to an output file.  Observable actions of one run (sleeps, whois
invocations, log records, sink writes/flushes) are modelled as an explicit
event trace.
-/

namespace CheckWhois

/-! ## filipUtils.py -/

/-- The source character table of removeDiacritics in filipUtils. -/
def intab : String := "ěščřžýáíéůúóťďňĚŠČŘŽÝÁÍÉŮÚŤĎŇ"

/-- The target character table of removeDiacritics in filipUtils. -/
def outtab : String := "escrzyaieuuotdnESCRZYAIEUUTDN"

/-- The translation table `dict((ord(a), b) for a, b in zip(intab, outtab))`. -/
def trantab : List (Char × Char) := intab.data.zip outtab.data

/-- Applying the translation table to one character: characters not in the
table are left unchanged (Python `unicode.translate` semantics). -/
def translateChar (c : Char) : Char := ((trantab.lookup c).getD c)

/-- Embeds removeDiacritics from filipUtils. -/
def removeDiacritics (s : String) : String := String.mk (s.data.map translateChar)

/-- Embeds removeDots from filipUtils: the translation deletes every dot. -/
def removeDots (s : String) : String := String.mk (s.data.filter (fun c => c != '.'))

/-- Embeds removeSpaces from filipUtils: the translation deletes every space. -/
def removeSpaces (s : String) : String := String.mk (s.data.filter (fun c => c != ' '))

/-! ## check-whois.py: normalization pipeline (line 165-168) -/

/-- Python encode with codec ascii and error mode ignore: drops every
non-ASCII character. -/
def encodeAsciiIgnore (s : String) : String :=
  String.mk (s.data.filter (fun c => decide (c.toNat < 128)))

/-- The six ASCII whitespace characters removed by Python 2 `str.strip()`. -/
def isPySpace (c : Char) : Bool :=
  c == ' ' || c == '\t' || c == '\n' || c == '\r' || c == '\x0b' || c == '\x0c'

/-- Python 2 `str.strip()`: remove leading and trailing ASCII whitespace. -/
def pyStrip (s : String) : String :=
  String.mk (((s.data.dropWhile isPySpace).reverse.dropWhile isPySpace).reverse)

/-- Python 2 `str.lower()` on a byte string: lowercases `A`-`Z` only,
which is exactly what `Char.toLower` does. -/
def pyLower (s : String) : String := String.mk (s.data.map Char.toLower)

/-- Line 165-168: removeDiacritics, then removeDots, then removeSpaces,
then the ASCII encode, then strip, then lower. -/
def normalizeLine (line : String) : String :=
  pyLower (pyStrip (encodeAsciiIgnore (removeSpaces (removeDots (removeDiacritics line)))))

/-! ## check-whois.py: constants and registry tables -/

/-- Line 53: seconds that is too much to wait for one domain. -/
def GIVE_UP_THRESHOLD : Nat := 4

/-- Line 56: whois output below this length is considered invalid / broken. -/
def MIN_VALID_WHOIS_OUTPUT : Nat := 50

/-- Line 70: `supported_tlds`. -/
def supported_tlds : List String := ["cz", "sk", "com", "net", "org"]

/-- Line 72-78: `whois_not_found_string` dictionary. -/
def whois_not_found_string : List (String × String) :=
  [("cz", "ERROR:101: no entries found"),
   ("sk", "Not found."),
   ("com", "No match for \""),
   ("net", "No match for \""),
   ("org", "NOT FOUND")]

/-- Line 79-85: `whois_connection_limit_string` dictionary. -/
def whois_connection_limit_string : List (String × String) :=
  [("cz", "Your connection limit exceeded."),
   ("sk", "Your connection limit exceeded."),
   ("com", "WHOIS LIMIT EXCEEDED"),
   ("net", "WHOIS LIMIT EXCEEDED"),
   ("org", "WHOIS LIMIT EXCEEDED")]

/-- Spec section 3: the per-registry signature pair.  In the code these are
the two dictionary entries at key `tld`. -/
structure RegistryProfile where
  notFoundSignature : String
  connectionLimitSignature : String
deriving DecidableEq

/-- Builds the registry profile of a TLD from the two dictionaries.  The
`getD ""` default is unreachable in the program: `tld` is always checked
against `supported_tlds` before use (line 105-109). -/
def profileFor (tld : String) : RegistryProfile :=
  { notFoundSignature := (whois_not_found_string.lookup tld).getD ""
  , connectionLimitSignature := (whois_connection_limit_string.lookup tld).getD "" }

/-- Python `output.find(sub) != -1`: `sub` occurs as a substring of `s`. -/
def strContains (s sub : String) : Bool := decide (sub.data <:+: s.data)

/-! ## check-whois.py: the WHOIS query engine (lines 175-232) -/

/-- One invocation result of the external `whois` binary: captured stdout and
the process exit status.  stderr is NOT piped (`Popen` is given
`stdout=PIPE` only, line 182-184), so `communicate()` always returns `None`
for the error stream. -/
structure WhoisResult where
  output : String
  returncode : Int
deriving DecidableEq

/-- A deterministic transport: the result of the `n`-th whois invocation for
one candidate. -/
def Transport : Type := Nat → WhoisResult

/-- Observable actions of the program, in program order. -/
inductive Event
  | sleep (seconds : Nat)
  | whoisCall (attempt : Nat)
  | logDebug (msg : String)
  | logInfo (msg : String)
  | logError (msg : String)
  | sinkWrite (text : String)
  | sinkFlush
deriving DecidableEq

/-- State of the retry loop when it exits: the trace of events it produced,
the final value of the `output` variable, and whether it exited through the
give-up branch (line 208-211) rather than the success branch (line 216-218). -/
structure LoopResult where
  trace : List Event
  output : String
  gaveUp : Bool
deriving DecidableEq

/-- Line 203-205: the retry condition
`((err or whois_process.returncode >= 2) and len(output) < MIN_VALID_WHOIS_OUTPUT)
or limit_index != -1`.  `err` is always `None` because stderr is not piped,
so the first disjunct of the inner `or` is always false. -/
def transientFailure (p : RegistryProfile) (r : WhoisResult) : Bool :=
  let err : Option String := none
  ((err.isSome || decide (2 ≤ r.returncode))
      && decide (r.output.length < MIN_VALID_WHOIS_OUTPUT))
    || strContains r.output p.connectionLimitSignature

/-- Events of one iteration of the loop body up to the retry decision
(lines 179-199): the netiquette sleep, the whois invocation, the error log
for an error exit status (line 191-197; the `if err` log at line 188-189
never fires since `err` is `None`), and the debug log of the raw output. -/
def attemptEvents (idx wait : Nat) (r : WhoisResult) : List Event :=
  [.sleep wait, .whoisCall idx]
    ++ (if 2 ≤ r.returncode
        then [.logError "Process whois returned with an error code"] else [])
    ++ [.logDebug r.output]

/-- The `while True` retry loop (lines 178-218) as a fuel-indexed function:
`none` means the fuel ran out before the loop exited.
`whoisLoopAux_fuel_two_isSome` below proves that fuel 2 always suffices for
the initial state of the program (`wait_seconds = 1`), so the fuel is a
termination device only, not a behavioral approximation. -/
def whoisLoopAux (p : RegistryProfile) (t : Transport) :
    Nat → Nat → Nat → Option LoopResult
  | 0, _, _ => none
  | fuel + 1, idx, wait =>
    let r := t idx
    let evs := attemptEvents idx wait r
    if transientFailure p r then
      -- line 207: wait_seconds *= 2
      let wait2 := wait * 2
      if GIVE_UP_THRESHOLD ≤ wait2 then
        -- line 208-211: log the unrecoverable error and break
        some ⟨evs ++ [.logError "Unrecoverable error, gave up"], r.output, true⟩
      else
        -- line 214-215: debug log, extra sleep, then loop back
        match whoisLoopAux p t fuel (idx + 1) wait2 with
        | none => none
        | some rest =>
          some ⟨evs ++ [.logDebug "waiting", .sleep wait2] ++ rest.trace,
                rest.output, rest.gaveUp⟩
    else
      -- line 216-218: it appears we have the whole thing
      some ⟨evs, r.output, false⟩

/-- The retry loop run from its initial state `wait_seconds = 1` (line 176).
Fuel 2 is exact: see `whoisLoopAux_fuel_two_isSome`. -/
def runQuery (p : RegistryProfile) (t : Transport) : LoopResult :=
  (whoisLoopAux p t 2 0 1).getD ⟨[], "", false⟩

/-- Lines 172-232 for one in-bounds candidate: the "Trying" info log, the
retry loop, then the free/registered classification of the final output
(which the code performs whether or not the loop gave up). -/
def processCandidate (p : RegistryProfile) (domainTld : String) (t : Transport) :
    LoopResult :=
  let L := runQuery p t
  let classEvents :=
    if strContains L.output p.notFoundSignature then
      [.logInfo (domainTld ++ " is free"),
       .sinkWrite (domainTld ++ "\n"), .sinkFlush]
    else
      [.logDebug (domainTld ++ " already registered")]
  ⟨[.logInfo ("Trying " ++ domainTld)] ++ L.trace ++ classEvents, L.output, L.gaveUp⟩

/-- Spec section 3: the outcome vocabulary for one candidate, derived from
the observable state of the loop result. -/
inductive QueryOutcome
  | Free
  | Registered
  | GaveUp
deriving DecidableEq

/-- The outcome of processing one candidate, in the vocabulary of the spec. -/
def outcomeOf (p : RegistryProfile) (L : LoopResult) : QueryOutcome :=
  if L.gaveUp then .GaveUp
  else if strContains L.output p.notFoundSignature then .Free else .Registered

/-! ## check-whois.py: the driver loop (lines 163-232) -/

/-- The driver configuration relevant to candidate processing. -/
structure Config where
  tld : String
  minLen : Int
  maxLen : Int

/-- Lines 163-232 for one input line: normalize it, filter by the inclusive
length bounds (line 171), and only when in bounds build `domain_tld` and run
the query engine.  The transport is keyed by the fully-qualified domain. -/
def processLine (cfg : Config) (t : String → Transport) (line : String) :
    List Event :=
  let domainName := normalizeLine line
  if cfg.minLen ≤ (domainName.length : Int) ∧ (domainName.length : Int) ≤ cfg.maxLen
  then
    let domainTld := domainName ++ "." ++ cfg.tld
    (processCandidate (profileFor cfg.tld) domainTld (t domainTld)).trace
  else []

/-- The driver loop `for line in infile` over all (post-skip) input lines. -/
def driverRun (cfg : Config) (t : String → Transport) : List String → List Event
  | [] => []
  | l :: ls => processLine cfg t l ++ driverRun cfg t ls

/-! ## Trace observations -/

/-- The durations of the sleep events of a trace, in order. -/
def sleepList (tr : List Event) : List Nat :=
  tr.filterMap (fun e => match e with | .sleep n => some n | _ => none)

/-- Total slept time of a trace. -/
def totalSleep (tr : List Event) : Nat := (sleepList tr).sum

/-- Number of whois invocations in a trace. -/
def whoisCallCount (tr : List Event) : Nat :=
  (tr.filterMap (fun e => match e with | .whoisCall i => some i | _ => none)).length

/-- The error-level log messages of a trace, in order. -/
def errorLogs (tr : List Event) : List String :=
  tr.filterMap (fun e => match e with | .logError m => some m | _ => none)

/-- The strings written to the output sink by a trace, in order. -/
def sinkWrites (tr : List Event) : List String :=
  tr.filterMap (fun e => match e with | .sinkWrite s => some s | _ => none)

/-- Effect of one event on the content of the output file: only sink writes
touch it, and they append. -/
def applyEvent (content : String) : Event → String
  | .sinkWrite s => content ++ s
  | _ => content

/-- The output file content after a trace runs against a file that held
`initial` when opened. -/
def runSink (initial : String) (tr : List Event) : String :=
  tr.foldl applyEvent initial

/-- Python open of the output path in append mode (line 157): the
existing content is left untouched. -/
def openForAppend (existing : String) : String := existing

/-! ## check-whois.py: command line front end (lines 58-161) -/

/-- Result of `getopt.getopt(argv, "hd:s:", [...])` (line 91-93): either the
parsed `(opts, args)` pair or a `GetoptError`. -/
inductive GetoptResult
  | ok (opts : List (String × String)) (args : List String)
  | error

/-- The mutable option state of `main` with its defaults (lines 66-87). -/
structure OptState where
  tld : String
  suffix : String
  min_domain_length : Int
  max_domain_length : Int
  debug : Bool
  skip_first : Int
deriving DecidableEq

/-- Lines 66-87: the default parameters. -/
def defaultOptState : OptState :=
  { tld := "cz", suffix := "-freedomains", min_domain_length := 1
  , max_domain_length := 18, debug := false, skip_first := 0 }

/-- How the option-processing loop (lines 99-120) ends. -/
inductive OptsResult
  | exitUsage    -- printed usage, then sys.exit(2)
  | exitTldList  -- printed the supported-TLD list, then sys.exit(2)
  | valueError   -- `int(arg)` raised; the uncaught exception kills the process
  | ok (st : OptState)
deriving DecidableEq

/-- The `for opt, arg in opts` loop of lines 99-120. -/
def processOpts (st : OptState) : List (String × String) → OptsResult
  | [] => .ok st
  | (opt, arg) :: rest =>
    if opt = "-h" ∨ opt = "--help" then .exitUsage
    else if opt = "-d" ∨ opt = "--tld" then
      if arg ∈ supported_tlds then processOpts { st with tld := arg } rest
      else .exitTldList
    else if opt = "-s" ∨ opt = "--suffix" then
      processOpts { st with suffix := arg } rest
    else if opt = "--min" then
      match arg.toInt? with
      | some n => processOpts { st with min_domain_length := n } rest
      | none => .valueError
    else if opt = "--max" then
      match arg.toInt? with
      | some n => processOpts { st with max_domain_length := n } rest
      | none => .valueError
    else if opt = "--debug" then processOpts { st with debug := true } rest
    else if opt = "--skip" then
      match arg.toInt? with
      | some n => processOpts { st with skip_first := n } rest
      | none => .valueError
    else processOpts st rest

/-- Observable result of one `main` invocation. -/
structure MainResult where
  exitCode : Nat
  usagePrinted : Bool
  tldListPrinted : Bool
  uncaughtException : Bool
  trace : List Event
deriving DecidableEq

/-- Runs main (lines 58-239) given the getopt result, whether the two file
opens succeed, the lines of the input file, and the whois transport.  A
successful run falls off the end of `main`, so the process exits 0; an
uncaught `ValueError` from `int(arg)` makes the interpreter exit 1. -/
def mainRun (g : GetoptResult) (inputOk outputOk : Bool)
    (lines : List String) (t : String → Transport) : MainResult :=
  match g with
  | .error => ⟨2, true, false, false, []⟩            -- lines 94-96
  | .ok opts args =>
    match processOpts defaultOptState opts with
    | .exitUsage => ⟨2, true, false, false, []⟩      -- lines 100-102
    | .exitTldList => ⟨2, false, true, false, []⟩    -- lines 105-109
    | .valueError => ⟨1, false, false, true, []⟩
    | .ok st =>
      match args with
      | [] => ⟨2, true, false, false, []⟩            -- lines 128-130
      | _ :: _ =>
        if !inputOk then ⟨1, false, false, false, []⟩   -- lines 152-154
        else if !outputOk then ⟨1, false, false, false, []⟩  -- lines 158-161
        else
          let effLines := lines.drop st.skip_first.toNat   -- lines 149-150
          ⟨0, false, false, false,
           driverRun ⟨st.tld, st.min_domain_length, st.max_domain_length⟩
             t effLines⟩

/-! ## Mock transports used by witnesses and counterexamples -/

/-! ## Concrete transports used as witnesses and counterexamples -/

/-- The `cz` registry profile, the program default. -/
def czProfile : RegistryProfile := profileFor "cz"

/-- A transport that returns the `cz` throttling message on every attempt. -/
def throttleOnlyTransport : Transport :=
  fun _ => ⟨"Your connection limit exceeded.", 0⟩

/-- A transport whose output contains both the `cz` not-found signature and
the `cz` throttling signature on every attempt. -/
def bothSignaturesTransport : Transport :=
  fun _ => ⟨"ERROR:101: no entries found ... Your connection limit exceeded.", 0⟩

/-- A transport with an error exit status but a long, signature-free output
on every attempt. -/
def longErrorTransport : Transport :=
  fun _ => ⟨"% some whois answer that is well over fifty characters long", 2⟩

/-- A transport with a long not-found (`cz`) response and exit status 0. -/
def freeLongTransport : Transport :=
  fun _ => ⟨"%  whois response padded to be long enough ... ERROR:101: no entries found", 0⟩

/-- A transport with a long signature-free response: a registered domain. -/
def registeredTransport : Transport :=
  fun _ => ⟨"%  whois response padded to be long enough: domain is registered", 0⟩

/-- Concatenation of the written strings, in write order. -/
def strJoin : List String → String
  | [] => ""
  | s :: l => s ++ strJoin l

/-- A character list shaped like one line of Python file iteration:
an optional trailing newline, no newline anywhere else. -/
def CleanLine (l : List Char) : Prop :=
  ∃ u, '\n' ∉ u ∧ (l = u ∨ l = u ++ ['\n'])

/-! ## Helper lemmas -/

/-! ## Loop characterization lemmas -/

theorem whoisLoopAux_wait_big (p : RegistryProfile) (t : Transport)
    (fuel idx wait : Nat) (hw : 2 ≤ wait) :
    whoisLoopAux p t (fuel + 1) idx wait =
      some (if transientFailure p (t idx)
            then ⟨attemptEvents idx wait (t idx)
                    ++ [.logError "Unrecoverable error, gave up"],
                  (t idx).output, true⟩
            else ⟨attemptEvents idx wait (t idx), (t idx).output, false⟩) := by
  have h4 : GIVE_UP_THRESHOLD ≤ wait * 2 := by
    simp only [GIVE_UP_THRESHOLD]; omega
  simp only [whoisLoopAux, h4, if_true]
  split
  · simp
  · simp

theorem runQuery_final (p : RegistryProfile) (t : Transport)
    (h0 : transientFailure p (t 0) = false) :
    runQuery p t = ⟨attemptEvents 0 1 (t 0), (t 0).output, false⟩ := by
  simp [runQuery, whoisLoopAux, h0]

theorem runQuery_retry_final (p : RegistryProfile) (t : Transport)
    (h0 : transientFailure p (t 0) = true)
    (h1 : transientFailure p (t 1) = false) :
    runQuery p t =
      ⟨attemptEvents 0 1 (t 0) ++ [.logDebug "waiting", .sleep 2]
         ++ attemptEvents 1 2 (t 1),
       (t 1).output, false⟩ := by
  simp [runQuery, whoisLoopAux, h0, h1, GIVE_UP_THRESHOLD]

theorem runQuery_retry_gaveUp (p : RegistryProfile) (t : Transport)
    (h0 : transientFailure p (t 0) = true)
    (h1 : transientFailure p (t 1) = true) :
    runQuery p t =
      ⟨attemptEvents 0 1 (t 0) ++ [.logDebug "waiting", .sleep 2]
         ++ (attemptEvents 1 2 (t 1)
              ++ [.logError "Unrecoverable error, gave up"]),
       (t 1).output, true⟩ := by
  simp [runQuery, whoisLoopAux, h0, h1, GIVE_UP_THRESHOLD]

theorem whoisLoopAux_fuel_two_isSome (p : RegistryProfile) (t : Transport) :
    (whoisLoopAux p t 2 0 1).isSome = true := by
  by_cases h0 : transientFailure p (t 0) = true
  · by_cases h1 : transientFailure p (t 1) = true
    · simp [whoisLoopAux, h0, h1, GIVE_UP_THRESHOLD]
    · simp [whoisLoopAux, h0, h1, GIVE_UP_THRESHOLD]
  · simp [whoisLoopAux, h0]

theorem whoisLoopAux_fuel_indep (p : RegistryProfile) (t : Transport) (fuel : Nat) :
    whoisLoopAux p t (fuel + 2) 0 1 = whoisLoopAux p t 2 0 1 := by
  by_cases h0 : transientFailure p (t 0) = true
  · by_cases h1 : transientFailure p (t 1) = true
    · simp [whoisLoopAux, h0, h1, GIVE_UP_THRESHOLD]
    · simp [whoisLoopAux, h0, h1, GIVE_UP_THRESHOLD]
  · simp [whoisLoopAux, h0]

/-! ## Trace observation lemmas -/

theorem sleepList_append (a b : List Event) :
    sleepList (a ++ b) = sleepList a ++ sleepList b := by
  simp [sleepList]

theorem sinkWrites_append (a b : List Event) :
    sinkWrites (a ++ b) = sinkWrites a ++ sinkWrites b := by
  simp [sinkWrites]

theorem errorLogs_append (a b : List Event) :
    errorLogs (a ++ b) = errorLogs a ++ errorLogs b := by
  simp [errorLogs]

theorem whoisCallCount_append (a b : List Event) :
    whoisCallCount (a ++ b) = whoisCallCount a + whoisCallCount b := by
  simp [whoisCallCount]

theorem sleepList_attemptEvents (i w : Nat) (r : WhoisResult) :
    sleepList (attemptEvents i w r) = [w] := by
  by_cases h : 2 ≤ r.returncode <;> simp [attemptEvents, sleepList, h]

theorem whoisCallCount_attemptEvents (i w : Nat) (r : WhoisResult) :
    whoisCallCount (attemptEvents i w r) = 1 := by
  by_cases h : 2 ≤ r.returncode <;> simp [attemptEvents, whoisCallCount, h]

theorem sinkWrites_attemptEvents (i w : Nat) (r : WhoisResult) :
    sinkWrites (attemptEvents i w r) = [] := by
  by_cases h : 2 ≤ r.returncode <;> simp [attemptEvents, sinkWrites, h]

theorem sinkWrites_runQuery (p : RegistryProfile) (t : Transport) :
    sinkWrites (runQuery p t).trace = [] := by
  by_cases h0 : transientFailure p (t 0) = true
  · by_cases h1 : transientFailure p (t 1) = true
    · rw [runQuery_retry_gaveUp p t h0 h1]
      simp only [sinkWrites_append, sinkWrites_attemptEvents]
      rfl
    · rw [runQuery_retry_final p t h0 (by simpa using h1)]
      simp only [sinkWrites_append, sinkWrites_attemptEvents]
      rfl
  · rw [runQuery_final p t (by simpa using h0)]
    simp only [sinkWrites_attemptEvents]

theorem processCandidate_gaveUp (p : RegistryProfile) (d : String) (t : Transport) :
    (processCandidate p d t).gaveUp = (runQuery p t).gaveUp := by
  by_cases h : strContains (runQuery p t).output p.notFoundSignature = true <;>
    simp [processCandidate, h]

theorem processCandidate_output (p : RegistryProfile) (d : String) (t : Transport) :
    (processCandidate p d t).output = (runQuery p t).output := by
  by_cases h : strContains (runQuery p t).output p.notFoundSignature = true <;>
    simp [processCandidate, h]

theorem sinkWrites_processCandidate (p : RegistryProfile) (d : String) (t : Transport) :
    sinkWrites (processCandidate p d t).trace =
      (if strContains (runQuery p t).output p.notFoundSignature
       then [d ++ "\n"] else []) := by
  by_cases h : strContains (runQuery p t).output p.notFoundSignature = true
  · simp only [processCandidate, h, if_true]
    rw [sinkWrites_append, sinkWrites_append, sinkWrites_runQuery]
    rfl
  · simp only [processCandidate, h, if_false, Bool.false_eq_true]
    rw [sinkWrites_append, sinkWrites_append, sinkWrites_runQuery]
    rfl

theorem runSink_eq (tr : List Event) : ∀ init : String,
    runSink init tr = init ++ strJoin (sinkWrites tr) := by
  induction tr with
  | nil => intro init; simp [runSink, sinkWrites, strJoin]
  | cons e tr ih =>
    intro init
    have step : runSink init (e :: tr) = runSink (applyEvent init e) tr := rfl
    cases e with
    | sinkWrite s =>
      rw [step, ih]
      show init ++ s ++ strJoin (sinkWrites tr) = init ++ strJoin (s :: sinkWrites tr)
      rw [strJoin, String.append_assoc]
    | sleep n => rw [step, ih]; rfl
    | whoisCall i => rw [step, ih]; rfl
    | logDebug m => rw [step, ih]; rfl
    | logInfo m => rw [step, ih]; rfl
    | logError m => rw [step, ih]; rfl
    | sinkFlush => rw [step, ih]; rfl

theorem sinkWrites_processLine (cfg : Config) (t : String → Transport)
    (line : String) :
    sinkWrites (processLine cfg t line) = [] ∨
    sinkWrites (processLine cfg t line) =
      [normalizeLine line ++ "." ++ cfg.tld ++ "\n"] := by
  by_cases hb : cfg.minLen ≤ ((normalizeLine line).length : Int) ∧
      ((normalizeLine line).length : Int) ≤ cfg.maxLen
  · simp only [processLine, hb, and_self, if_true]
    rw [sinkWrites_processCandidate]
    split
    · right; rfl
    · left; rfl
  · left; simp [processLine, hb, sinkWrites]

theorem sinkWrites_driverRun (cfg : Config) (t : String → Transport) :
    ∀ lines : List String, ∀ w ∈ sinkWrites (driverRun cfg t lines),
      ∃ l ∈ lines, w = normalizeLine l ++ "." ++ cfg.tld ++ "\n" := by
  intro lines
  induction lines with
  | nil => intro w hw; simp [driverRun, sinkWrites] at hw
  | cons l ls ih =>
    intro w hw
    rw [driverRun, sinkWrites_append] at hw
    rcases List.mem_append.1 hw with h1 | h1
    · rcases sinkWrites_processLine cfg t l with he | he
      · rw [he] at h1; simp at h1
      · rw [he] at h1
        simp only [List.mem_singleton] at h1
        exact ⟨l, List.mem_cons_self l ls, h1⟩
    · obtain ⟨l2, hl2, he⟩ := ih w h1
      exact ⟨l2, List.mem_cons_of_mem l hl2, he⟩

theorem cleanLine_of_dropLast (l : List Char) (h : '\n' ∉ l.dropLast) :
    CleanLine l := by
  cases l with
  | nil => exact ⟨[], by simp, Or.inl rfl⟩
  | cons a as =>
    have hne : a :: as ≠ [] := by simp
    by_cases hl : (a :: as).getLast hne = '\n'
    · refine ⟨(a :: as).dropLast, h, Or.inr ?_⟩
      rw [← hl]
      exact (List.dropLast_append_getLast hne).symm
    · refine ⟨a :: as, ?_, Or.inl rfl⟩
      intro hm
      rw [← List.dropLast_append_getLast hne] at hm
      rcases List.mem_append.1 hm with h1 | h1
      · exact h h1
      · simp only [List.mem_singleton] at h1
        exact hl h1.symm

theorem lookup_mem_snd {α β : Type} [BEq α] (a : α) (b : β) :
    ∀ ps : List (α × β), ps.lookup a = some b → b ∈ ps.map Prod.snd := by
  intro ps
  induction ps with
  | nil => intro h; exact Option.noConfusion h
  | cons p ps ih =>
    intro h
    rw [List.lookup] at h
    by_cases he : a == p.1
    · simp only [he] at h
      simp only [Option.some.injEq] at h
      simp [← h]
    · rw [Bool.not_eq_true] at he
      simp only [he] at h
      simp [ih h]

theorem translateChar_eq_newline (c : Char) (h : translateChar c = '\n') :
    c = '\n' := by
  rw [translateChar] at h
  cases hl : trantab.lookup c with
  | none => rw [hl] at h; exact h
  | some v =>
    rw [hl] at h
    simp only [Option.getD_some] at h
    have hv : v ∈ trantab.map Prod.snd := lookup_mem_snd c v trantab hl
    have : ∀ x ∈ trantab.map Prod.snd, x ≠ '\n' := by decide
    exact absurd h (this v hv)

theorem cleanLine_map (f : Char → Char) (hf : ∀ c, f c = '\n' → c = '\n')
    (hn : f '\n' = '\n') (l : List Char) (h : CleanLine l) :
    CleanLine (l.map f) := by
  obtain ⟨u, hu, hl | hl⟩ := h
  · refine ⟨u.map f, ?_, Or.inl (by rw [hl])⟩
    intro hm
    obtain ⟨c, hc, hfc⟩ := List.mem_map.1 hm
    exact hu (hf c hfc ▸ hc)
  · refine ⟨u.map f, ?_, Or.inr ?_⟩
    · intro hm
      obtain ⟨c, hc, hfc⟩ := List.mem_map.1 hm
      exact hu (hf c hfc ▸ hc)
    · rw [hl, List.map_append, List.map_singleton, hn]

theorem cleanLine_filter (p : Char → Bool) (hp : p '\n' = true)
    (l : List Char) (h : CleanLine l) : CleanLine (l.filter p) := by
  obtain ⟨u, hu, hl | hl⟩ := h
  · refine ⟨u.filter p, ?_, Or.inl (by rw [hl])⟩
    intro hm
    exact hu (List.mem_of_mem_filter hm)
  · refine ⟨u.filter p, ?_, Or.inr ?_⟩
    · intro hm
      exact hu (List.mem_of_mem_filter hm)
    · rw [hl, List.filter_append]
      simp [hp]

theorem isPySpace_newline : isPySpace '\n' = true := by decide

theorem no_newline_pyStripList (l : List Char) (h : CleanLine l) :
    '\n' ∉ ((l.dropWhile isPySpace).reverse.dropWhile isPySpace).reverse := by
  obtain ⟨u, hu, hl | hl⟩ := h
  · intro hm
    rw [List.mem_reverse] at hm
    have h1 := List.dropWhile_sublist (l := (l.dropWhile isPySpace).reverse)
      (p := isPySpace) |>.subset hm
    rw [List.mem_reverse] at h1
    have h2 := List.dropWhile_sublist (l := l) (p := isPySpace) |>.subset h1
    rw [hl] at h2
    exact hu h2
  · set a := l.dropWhile isPySpace with ha
    rcases List.dropWhile_suffix (l := l) isPySpace with ⟨pre, hpre⟩
    by_cases hae : a = []
    · rw [hae]
      simp
    · have hsplit : a = a.dropLast ++ [a.getLast hae] := (List.dropLast_append_getLast hae).symm
      have hlast : a.getLast hae = '\n' := by
        have h1 : (pre ++ a).getLast (by simp [hae]) = a.getLast hae :=
          List.getLast_append_of_ne_nil hae
        have h2 : (u ++ ['\n']).getLast (by simp) = '\n' := by
          rw [List.getLast_append_of_ne_nil (by simp : (['\n'] : List Char) ≠ [])]
          rfl
      
        have hpa : pre ++ a = u ++ ['\n'] := by rw [hpre, hl]
        rw [← h1]
        have : (pre ++ a).getLast (by simp [hae]) = (u ++ ['\n']).getLast (by simp) := by
          congr 1
        rw [this, h2]
      have hdrop : pre ++ a.dropLast = u := by
        have hpa : pre ++ a = u ++ ['\n'] := by rw [hpre, hl]
        have : (pre ++ a).dropLast = (u ++ ['\n']).dropLast := by rw [hpa]
        rw [List.dropLast_append_of_ne_nil pre hae, List.dropLast_concat] at this
        exact this
      have hnd : '\n' ∉ a.dropLast := by
        intro hm
        exact hu (hdrop ▸ List.mem_append_right pre hm)
      have hrev : a.reverse = '\n' :: a.dropLast.reverse := by
        conv_lhs => rw [hsplit]
        rw [List.reverse_append, hlast]
        rfl
      intro hm
      rw [List.mem_reverse, hrev, List.dropWhile_cons_of_pos isPySpace_newline] at hm
      have h1 := List.dropWhile_sublist (l := a.dropLast.reverse)
        (p := isPySpace) |>.subset hm
      rw [List.mem_reverse] at h1
      exact hnd h1

/-! ## Claim theorems -/

/-- C1: an attempt is classified transient (and retried) iff the exit
status is ≥ 2 with output shorter than 50 characters, or the output
contains the connection-limit signature of the profile; a final attempt is
queried exactly once, never gives up, and proceeds to the free/registered
classification of its output, while a transient first attempt is retried. -/
theorem c1_transient_classification (p : RegistryProfile) (t : Transport)
    (r : WhoisResult) (d : String) :
    (transientFailure p r = true ↔
      ((2 ≤ r.returncode ∧ r.output.length < MIN_VALID_WHOIS_OUTPUT) ∨
        strContains r.output p.connectionLimitSignature = true)) ∧
    (transientFailure p (t 0) = false →
      whoisCallCount (runQuery p t).trace = 1 ∧
      (runQuery p t).gaveUp = false ∧
      (runQuery p t).output = (t 0).output ∧
      outcomeOf p (processCandidate p d t) =
        (if strContains (t 0).output p.notFoundSignature
         then .Free else .Registered)) ∧
    (transientFailure p (t 0) = true →
      whoisCallCount (runQuery p t).trace = 2) := by
  refine ⟨?_, ?_, ?_⟩
  · simp [transientFailure, MIN_VALID_WHOIS_OUTPUT]
  · intro h0
    have hq := runQuery_final p t h0
    refine ⟨by rw [hq]; exact whoisCallCount_attemptEvents 0 1 (t 0), by rw [hq], by rw [hq], ?_⟩
    rw [outcomeOf, processCandidate_gaveUp, processCandidate_output, hq]
    simp
  · intro h0
    by_cases h1 : transientFailure p (t 1) = true
    · rw [runQuery_retry_gaveUp p t h0 h1]
      simp only [whoisCallCount_append, whoisCallCount_attemptEvents]
      decide
    · rw [runQuery_retry_final p t h0 (by simpa using h1)]
      simp only [whoisCallCount_append, whoisCallCount_attemptEvents]
      decide

/-- Witness for C1 at concrete inputs: a long erroring output is final and
queried once; the throttling output is transient and queried twice. -/
theorem c1_witness :
    (transientFailure czProfile (longErrorTransport 0) = false ∧
      whoisCallCount (runQuery czProfile longErrorTransport).trace = 1) ∧
    (transientFailure czProfile (throttleOnlyTransport 0) = true ∧
      whoisCallCount (runQuery czProfile throttleOnlyTransport).trace = 2) := by
  constructor
  · exact ⟨by decide,
      ((c1_transient_classification czProfile longErrorTransport
        (longErrorTransport 0) "x.cz").2.1 (by decide)).1⟩
  · exact ⟨by decide,
      (c1_transient_classification czProfile throttleOnlyTransport
        (throttleOnlyTransport 0) "x.cz").2.2 (by decide)⟩

/-- C6: the retry loop terminates (fuel 2 always suffices), issues at most
two whois attempts, and sleeps at most 5 time units in total. -/
theorem c6_bounded_behavior (p : RegistryProfile) (t : Transport) :
    whoisCallCount (runQuery p t).trace ≤ 2 ∧
    totalSleep (runQuery p t).trace ≤ 5 ∧
    (whoisLoopAux p t 2 0 1).isSome = true := by
  refine ⟨?_, ?_, whoisLoopAux_fuel_two_isSome p t⟩ <;>
  · by_cases h0 : transientFailure p (t 0) = true
    · by_cases h1 : transientFailure p (t 1) = true
      · rw [runQuery_retry_gaveUp p t h0 h1]
        simp only [whoisCallCount_append, whoisCallCount_attemptEvents,
          totalSleep, sleepList_append, sleepList_attemptEvents]
        decide
      · rw [runQuery_retry_final p t h0 (by simpa using h1)]
        simp only [whoisCallCount_append, whoisCallCount_attemptEvents,
          totalSleep, sleepList_append, sleepList_attemptEvents]
        decide
    · rw [runQuery_final p t (by simpa using h0)]
      simp only [whoisCallCount_attemptEvents, totalSleep, sleepList_attemptEvents]
      decide

theorem sleepList_errIf (c : Prop) [Decidable c] (m : String) :
    sleepList (if c then [Event.logError m] else []) = [] := by
  split <;> rfl

theorem whoisCallCount_errIf (c : Prop) [Decidable c] (m : String) :
    whoisCallCount (if c then [Event.logError m] else []) = 0 := by
  split <;> rfl

/-- C2 counterexample: on the always-throttling transport the engine sleeps
the doubled delay twice between the first and second attempt (the explicit
retry sleep and the loop-top pacing sleep), so the slept sequence is
`[1, 2, 2]` and not the `[1, 2]` the claim requires. -/
theorem c2_counterexample :
    (runQuery czProfile throttleOnlyTransport).trace =
      [.sleep 1, .whoisCall 0,
       .logDebug "Your connection limit exceeded.",
       .logDebug "waiting", .sleep 2,
       .sleep 2, .whoisCall 1,
       .logDebug "Your connection limit exceeded.",
       .logError "Unrecoverable error, gave up"] ∧
    sleepList (runQuery czProfile throttleOnlyTransport).trace ≠ [1, 2] := by
  decide

/-- C2 amended: after a transient first attempt (doubled delay 2, below the
threshold 4), exactly two sleeps — each of the new doubled delay — occur
between that attempt and the next one: the escalated retry sleep is followed
by the loop-top pacing sleep of the same escalated delay, so the engine
waits 2 and then 2 again before requerying. -/
theorem c2_two_sleeps_between_attempts (p : RegistryProfile) (t : Transport)
    (h0 : transientFailure p (t 0) = true) :
    ∃ pre mid post, (runQuery p t).trace =
        pre ++ [Event.whoisCall 0] ++ mid ++ [Event.whoisCall 1] ++ post ∧
      sleepList mid = [2, 2] ∧ whoisCallCount mid = 0 := by
  have hmid : sleepList
        ((if 2 ≤ (t 0).returncode
          then [Event.logError "Process whois returned with an error code"]
          else [])
          ++ [Event.logDebug (t 0).output, Event.logDebug "waiting",
              Event.sleep 2, Event.sleep 2]) = [2, 2] := by
    rw [sleepList_append, sleepList_errIf]
    rfl
  have hmid2 : whoisCallCount
        ((if 2 ≤ (t 0).returncode
          then [Event.logError "Process whois returned with an error code"]
          else [])
          ++ [Event.logDebug (t 0).output, Event.logDebug "waiting",
              Event.sleep 2, Event.sleep 2]) = 0 := by
    rw [whoisCallCount_append, whoisCallCount_errIf]
    rfl
  by_cases h1 : transientFailure p (t 1) = true
  · refine ⟨[Event.sleep 1],
      (if 2 ≤ (t 0).returncode
        then [Event.logError "Process whois returned with an error code"]
        else [])
        ++ [Event.logDebug (t 0).output, Event.logDebug "waiting",
            Event.sleep 2, Event.sleep 2],
      (if 2 ≤ (t 1).returncode
        then [Event.logError "Process whois returned with an error code"]
        else [])
        ++ [Event.logDebug (t 1).output]
        ++ [Event.logError "Unrecoverable error, gave up"],
      ?_, hmid, hmid2⟩
    rw [runQuery_retry_gaveUp p t h0 h1]
    simp [attemptEvents]
  · refine ⟨[Event.sleep 1],
      (if 2 ≤ (t 0).returncode
        then [Event.logError "Process whois returned with an error code"]
        else [])
        ++ [Event.logDebug (t 0).output, Event.logDebug "waiting",
            Event.sleep 2, Event.sleep 2],
      (if 2 ≤ (t 1).returncode
        then [Event.logError "Process whois returned with an error code"]
        else [])
        ++ [Event.logDebug (t 1).output] ++ [],
      ?_, hmid, hmid2⟩
    rw [runQuery_retry_final p t h0 (by simpa using h1)]
    simp [attemptEvents]

/-- Witness for C2 amended: the first attempt of the always-throttling
transport is transient, and two sleeps of 2 separate the two attempts. -/
theorem c2_witness :
    transientFailure czProfile (throttleOnlyTransport 0) = true ∧
    ∃ pre mid post, (runQuery czProfile throttleOnlyTransport).trace =
        pre ++ [Event.whoisCall 0] ++ mid ++ [Event.whoisCall 1] ++ post ∧
      sleepList mid = [2, 2] ∧ whoisCallCount mid = 0 :=
  ⟨by decide,
   c2_two_sleeps_between_attempts czProfile throttleOnlyTransport (by decide)⟩

/-- C3 counterexample: with the always-throttling transport (initial delay 1,
give-up threshold 4) the engine makes only two throttled attempts with slept
sequence `[1, 2, 2]` before giving up, not three attempts with `[1, 2, 4]`. -/
theorem c3_counterexample :
    whoisCallCount (runQuery czProfile throttleOnlyTransport).trace = 2 ∧
    sleepList (runQuery czProfile throttleOnlyTransport).trace = [1, 2, 2] ∧
    (runQuery czProfile throttleOnlyTransport).gaveUp = true ∧
    ¬(whoisCallCount (runQuery czProfile throttleOnlyTransport).trace = 3 ∧
      sleepList (runQuery czProfile throttleOnlyTransport).trace = [1, 2, 4]) := by
  decide

/-- C3 amended: with initial delay 1 and give-up threshold 4, a transport
whose every response contains the connection-limit signature yields exactly
two throttled attempts with slept sequence `[1, 2, 2]` (the doubled delay
reaches the threshold right after the second attempt, so a sleep of 4 never
happens) before the engine gives up. -/
theorem c3_throttle_until_gaveup (p : RegistryProfile) (t : Transport)
    (h : ∀ i, strContains (t i).output p.connectionLimitSignature = true) :
    whoisCallCount (runQuery p t).trace = 2 ∧
    sleepList (runQuery p t).trace = [1, 2, 2] ∧
    (runQuery p t).gaveUp = true ∧
    outcomeOf p (runQuery p t) = .GaveUp := by
  have h0 : transientFailure p (t 0) = true := by
    simp [transientFailure, h 0]
  have h1 : transientFailure p (t 1) = true := by
    simp [transientFailure, h 1]
  rw [runQuery_retry_gaveUp p t h0 h1]
  refine ⟨?_, ?_, rfl, ?_⟩
  · simp only [whoisCallCount_append, whoisCallCount_attemptEvents]
    decide
  · simp only [sleepList_append, sleepList_attemptEvents]
    decide
  · simp [outcomeOf]

/-- Witness for C3 amended at the concrete throttling transport. -/
theorem c3_witness :
    (∀ i, strContains (throttleOnlyTransport i).output
        czProfile.connectionLimitSignature = true) ∧
    whoisCallCount (runQuery czProfile throttleOnlyTransport).trace = 2 ∧
    sleepList (runQuery czProfile throttleOnlyTransport).trace = [1, 2, 2] :=
  ⟨fun _ => rfl,
   (c3_throttle_until_gaveup czProfile throttleOnlyTransport (fun _ => rfl)).1,
   (c3_throttle_until_gaveup czProfile throttleOnlyTransport (fun _ => rfl)).2.1⟩

/-- C4 counterexample: a transport whose throttling responses also contain
the not-found signature exhausts its retries (the outcome is GaveUp), yet
the code still classifies the last output and appends a line to the sink. -/
theorem c4_counterexample :
    (processCandidate czProfile "example.cz" bothSignaturesTransport).gaveUp = true ∧
    sinkWrites
      (processCandidate czProfile "example.cz" bothSignaturesTransport).trace =
      ["example.cz\n"] := by
  decide

/-- C4 amended: when the retry sequence of a candidate ends in GaveUp an
error-level log entry is emitted and the driver loop continues with the next
candidate, but the last received output is still classified: a sink write
occurs exactly when that output contains the not-found signature (so only
throttle-style outputs without it produce no write). -/
theorem c4_gaveup_behavior (p : RegistryProfile) (d : String) (t : Transport)
    (h : (processCandidate p d t).gaveUp = true) :
    "Unrecoverable error, gave up" ∈ errorLogs (processCandidate p d t).trace ∧
    sinkWrites (processCandidate p d t).trace =
      (if strContains (processCandidate p d t).output p.notFoundSignature
       then [d ++ "\n"] else []) ∧
    (∀ cfg t2 l ls, driverRun cfg t2 (l :: ls) =
      processLine cfg t2 l ++ driverRun cfg t2 ls) := by
  refine ⟨?_, ?_, fun cfg t2 l ls => rfl⟩
  · rw [processCandidate_gaveUp] at h
    have h0 : transientFailure p (t 0) = true := by
      by_contra hc
      rw [runQuery_final p t (by simpa using hc)] at h
      simp at h
    have h1 : transientFailure p (t 1) = true := by
      by_contra hc
      rw [runQuery_retry_final p t h0 (by simpa using hc)] at h
      simp at h
    by_cases hf : strContains (runQuery p t).output p.notFoundSignature = true <;>
    · simp only [processCandidate, hf, if_true, if_false, Bool.false_eq_true,
        errorLogs_append]
      rw [runQuery_retry_gaveUp p t h0 h1]
      simp [errorLogs_append, errorLogs]
  · rw [sinkWrites_processCandidate, processCandidate_output]

/-- Witness for C4 amended at the both-signatures transport. -/
theorem c4_witness :
    (processCandidate czProfile "example.cz" bothSignaturesTransport).gaveUp = true ∧
    "Unrecoverable error, gave up" ∈
      errorLogs (processCandidate czProfile "example.cz" bothSignaturesTransport).trace :=
  ⟨by decide,
   (c4_gaveup_behavior czProfile "example.cz" bothSignaturesTransport (by decide)).1⟩

/-- C5: for a candidate whose loop ends without giving up, if the final
output contains the not-found signature the outcome is Free and exactly one
line — the fully-qualified domain — is written to the sink, immediately
followed by a flush; if it lacks the signature the outcome is Registered and
nothing is written. -/
theorem c5_final_classification (p : RegistryProfile) (d : String) (t : Transport)
    (h : (processCandidate p d t).gaveUp = false) :
    (strContains (processCandidate p d t).output p.notFoundSignature = true →
      outcomeOf p (processCandidate p d t) = .Free ∧
      sinkWrites (processCandidate p d t).trace = [d ++ "\n"] ∧
      [Event.sinkWrite (d ++ "\n"), Event.sinkFlush] <:+:
        (processCandidate p d t).trace) ∧
    (strContains (processCandidate p d t).output p.notFoundSignature = false →
      outcomeOf p (processCandidate p d t) = .Registered ∧
      sinkWrites (processCandidate p d t).trace = []) := by
  constructor
  · intro hf
    refine ⟨?_, ?_, ?_⟩
    · simp [outcomeOf, h, hf]
    · rw [sinkWrites_processCandidate, processCandidate_output] at *
      simp [hf]
    · rw [processCandidate_output] at hf
      refine ⟨[Event.logInfo ("Trying " ++ d)] ++ (runQuery p t).trace
          ++ [Event.logInfo (d ++ " is free")], [], ?_⟩
      simp [processCandidate, hf]
  · intro hf
    refine ⟨?_, ?_⟩
    · simp [outcomeOf, h, hf]
    · rw [sinkWrites_processCandidate, processCandidate_output] at *
      simp [hf]

set_option maxRecDepth 8192 in
/-- Witness for C5 at concrete transports: a long not-found response yields
Free with one sink line; a long signature-free response yields Registered
with no sink write. -/
theorem c5_witness :
    ((processCandidate czProfile "caferene.cz" freeLongTransport).gaveUp = false ∧
      outcomeOf czProfile (processCandidate czProfile "caferene.cz" freeLongTransport) = .Free ∧
      sinkWrites (processCandidate czProfile "caferene.cz" freeLongTransport).trace =
        ["caferene.cz\n"]) ∧
    ((processCandidate czProfile "taken.cz" registeredTransport).gaveUp = false ∧
      outcomeOf czProfile (processCandidate czProfile "taken.cz" registeredTransport) = .Registered ∧
      sinkWrites (processCandidate czProfile "taken.cz" registeredTransport).trace = []) := by
  constructor
  · have hc := (c5_final_classification czProfile "caferene.cz" freeLongTransport
      (by decide)).1 (by decide)
    exact ⟨by decide, hc.1, hc.2.1⟩
  · have hc := (c5_final_classification czProfile "taken.cz" registeredTransport
      (by decide)).2 (by decide)
    exact ⟨by decide, hc.1, hc.2⟩

theorem whoisCall_mem_attemptEvents (i w : Nat) (r : WhoisResult) :
    Event.whoisCall i ∈ attemptEvents i w r := by
  simp [attemptEvents]

theorem whoisCall_mem_runQuery (p : RegistryProfile) (t : Transport) :
    Event.whoisCall 0 ∈ (runQuery p t).trace := by
  by_cases h0 : transientFailure p (t 0) = true
  · by_cases h1 : transientFailure p (t 1) = true
    · rw [runQuery_retry_gaveUp p t h0 h1]
      simp [whoisCall_mem_attemptEvents]
    · rw [runQuery_retry_final p t h0 (by simpa using h1)]
      simp [whoisCall_mem_attemptEvents]
  · rw [runQuery_final p t (by simpa using h0)]
    exact whoisCall_mem_attemptEvents 0 1 (t 0)

theorem whoisCall_mem_processCandidate (p : RegistryProfile) (d : String)
    (t : Transport) :
    Event.whoisCall 0 ∈ (processCandidate p d t).trace := by
  by_cases h : strContains (runQuery p t).output p.notFoundSignature = true <;>
    simp [processCandidate, h, whoisCall_mem_runQuery]

/-- C7: a WHOIS query is issued for the normalized candidate of an input
line exactly when the length of the candidate lies within the bounds;
out-of-bounds candidates — in particular zero-length candidates whenever the
minimum bound is at least its default 1 — produce no events at all. -/
theorem c7_length_filter (cfg : Config) (t : String → Transport) (line : String) :
    ((∃ i, Event.whoisCall i ∈ processLine cfg t line) ↔
      (cfg.minLen ≤ ((normalizeLine line).length : Int) ∧
        ((normalizeLine line).length : Int) ≤ cfg.maxLen)) ∧
    ((((normalizeLine line).length : Int) < cfg.minLen ∨
        cfg.maxLen < ((normalizeLine line).length : Int)) →
      processLine cfg t line = []) ∧
    (1 ≤ cfg.minLen → normalizeLine line = "" → processLine cfg t line = []) := by
  by_cases hb : cfg.minLen ≤ ((normalizeLine line).length : Int) ∧
      ((normalizeLine line).length : Int) ≤ cfg.maxLen
  · refine ⟨⟨fun _ => hb, fun _ => ?_⟩, fun hc => ?_, fun h1 h0 => ?_⟩
    · exact ⟨0, by
        simp only [processLine, hb, if_true]
        exact whoisCall_mem_processCandidate _ _ _⟩
    · omega
    · rw [h0] at hb
      simp at hb
      omega
  · refine ⟨⟨fun ⟨i, hi⟩ => ?_, fun hc => absurd hc hb⟩, fun _ => ?_, fun _ _ => ?_⟩
    · rw [processLine] at hi
      simp only [hb, if_false] at hi
      simp at hi
    · simp [processLine, hb]
    · simp [processLine, hb]

/-- Witness for C7: a one-character candidate is queried under the default
bounds 1..18; with those bounds an empty candidate is filtered out. -/
theorem c7_witness :
    ((∃ i, Event.whoisCall i ∈
        processLine ⟨"cz", 1, 18⟩ (fun _ => registeredTransport) "a") ↔
      ((1 : Int) ≤ ((normalizeLine "a").length : Int) ∧
        ((normalizeLine "a").length : Int) ≤ 18)) ∧
    ((1 : Int) ≤ 1 ∧ normalizeLine "" = "" ∧
      processLine ⟨"cz", 1, 18⟩ (fun _ => registeredTransport) "" = []) := by
  refine ⟨(c7_length_filter ⟨"cz", 1, 18⟩ (fun _ => registeredTransport) "a").1,
    by decide, by decide, ?_⟩
  exact (c7_length_filter ⟨"cz", 1, 18⟩ (fun _ => registeredTransport) "").2.2
    (by decide) (by decide)

/-- C8: exit status 2 on a getopt error (after printing usage), on an
unsupported TLD option (after printing the supported-TLD list), and on a
missing input-file argument (after printing usage); exit status 1 when the
input file or the output file cannot be opened; exit status 0 when
everything succeeds and the run completes. -/
theorem c8_exit_codes :
    (∀ io oo ls t, (mainRun .error io oo ls t).exitCode = 2 ∧
      (mainRun .error io oo ls t).usagePrinted = true) ∧
    (∀ st s rest, s ∉ supported_tlds →
      processOpts st (("-d", s) :: rest) = .exitTldList ∧
      processOpts st (("--tld", s) :: rest) = .exitTldList) ∧
    (∀ opts args io oo ls t, processOpts defaultOptState opts = .exitTldList →
      (mainRun (.ok opts args) io oo ls t).exitCode = 2 ∧
      (mainRun (.ok opts args) io oo ls t).tldListPrinted = true) ∧
    (∀ opts st io oo ls t, processOpts defaultOptState opts = .ok st →
      (mainRun (.ok opts []) io oo ls t).exitCode = 2 ∧
      (mainRun (.ok opts []) io oo ls t).usagePrinted = true) ∧
    (∀ opts st a args oo ls t, processOpts defaultOptState opts = .ok st →
      (mainRun (.ok opts (a :: args)) false oo ls t).exitCode = 1) ∧
    (∀ opts st a args ls t, processOpts defaultOptState opts = .ok st →
      (mainRun (.ok opts (a :: args)) true false ls t).exitCode = 1) ∧
    (∀ opts st a args ls t, processOpts defaultOptState opts = .ok st →
      (mainRun (.ok opts (a :: args)) true true ls t).exitCode = 0) := by
  refine ⟨fun io oo ls t => ⟨rfl, rfl⟩, ?_, ?_, ?_, ?_, ?_, ?_⟩
  · intro st s rest hs
    constructor <;> simp [processOpts, hs]
  · intro opts args io oo ls t hp
    cases args <;> simp [mainRun, hp]
  · intro opts st io oo ls t hp
    simp [mainRun, hp]
  · intro opts st a args oo ls t hp
    simp [mainRun, hp]
  · intro opts st a args ls t hp
    simp [mainRun, hp]
  · intro opts st a args ls t hp
    simp [mainRun, hp]

/-- Witness for C8 at concrete command lines: `--tld de` exits 2 after
printing the TLD list; a run with no positional argument exits 2; failed
input or output open exits 1; a successful run exits 0. -/
theorem c8_witness :
    ("de" ∉ supported_tlds ∧
      processOpts defaultOptState [("--tld", "de")] = .exitTldList) ∧
    (processOpts defaultOptState [("--debug", "")] = .ok
        { defaultOptState with debug := true } ∧
      (mainRun (.ok [("--debug", "")] []) true true []
          (fun _ => registeredTransport)).exitCode = 2 ∧
      (mainRun (.ok [("--debug", "")] ["in.txt"]) false true []
          (fun _ => registeredTransport)).exitCode = 1 ∧
      (mainRun (.ok [("--debug", "")] ["in.txt"]) true false []
          (fun _ => registeredTransport)).exitCode = 1 ∧
      (mainRun (.ok [("--debug", "")] ["in.txt"]) true true []
          (fun _ => registeredTransport)).exitCode = 0) := by
  refine ⟨⟨by decide, ?_⟩, by decide, ?_, ?_, ?_, ?_⟩
  · exact ((c8_exit_codes).2.1 defaultOptState "de" [] (by decide)).2
  · exact ((c8_exit_codes).2.2.2.1 [("--debug", "")]
      { defaultOptState with debug := true } true true []
      (fun _ => registeredTransport) (by decide)).1
  · exact (c8_exit_codes).2.2.2.2.1 [("--debug", "")]
      { defaultOptState with debug := true } "in.txt" [] true []
      (fun _ => registeredTransport) (by decide)
  · exact (c8_exit_codes).2.2.2.2.2.1 [("--debug", "")]
      { defaultOptState with debug := true } "in.txt" [] []
      (fun _ => registeredTransport) (by decide)
  · exact (c8_exit_codes).2.2.2.2.2.2 [("--debug", "")]
      { defaultOptState with debug := true } "in.txt" [] []
      (fun _ => registeredTransport) (by decide)

/-- C10: a `-h` or `--help` option makes the program print the usage text
and exit with status 2 — the same status as for bad arguments — not with
the success status 0. -/
theorem c10_help_exits_two (a : String) (rest : List (String × String))
    (args : List String) (io oo : Bool) (ls : List String)
    (t : String → Transport) :
    ((mainRun (.ok (("-h", a) :: rest) args) io oo ls t).exitCode = 2 ∧
      (mainRun (.ok (("-h", a) :: rest) args) io oo ls t).usagePrinted = true ∧
      (mainRun (.ok (("-h", a) :: rest) args) io oo ls t).exitCode ≠ 0) ∧
    ((mainRun (.ok (("--help", a) :: rest) args) io oo ls t).exitCode = 2 ∧
      (mainRun (.ok (("--help", a) :: rest) args) io oo ls t).usagePrinted = true ∧
      (mainRun (.ok (("--help", a) :: rest) args) io oo ls t).exitCode ≠ 0) := by
  have hh : processOpts defaultOptState (("-h", a) :: rest) = .exitUsage := by
    simp [processOpts]
  have hh2 : processOpts defaultOptState (("--help", a) :: rest) = .exitUsage := by
    simp [processOpts]
  constructor <;> [rw [mainRun, hh]; rw [mainRun, hh2]] <;> exact ⟨rfl, rfl, by simp⟩

theorem toLower_ascii_newline :
    ∀ n : Fin 128, Char.toLower (Char.ofNat n.val) = '\n' → Char.ofNat n.val = '\n' := by
  decide

theorem toLower_eq_newline (c : Char) (hc : c.toNat < 128)
    (h : Char.toLower c = '\n') : c = '\n' := by
  have h2 := toLower_ascii_newline ⟨c.toNat, hc⟩
  simp only [Char.ofNat_toNat] at h2
  exact h2 h

theorem pyStrip_subset (l : List Char) (c : Char)
    (h : c ∈ ((l.dropWhile isPySpace).reverse.dropWhile isPySpace).reverse) :
    c ∈ l := by
  rw [List.mem_reverse] at h
  have h1 := (List.dropWhile_sublist (l := (l.dropWhile isPySpace).reverse)
    (p := isPySpace)).subset h
  rw [List.mem_reverse] at h1
  exact (List.dropWhile_sublist (l := l) (p := isPySpace)).subset h1

theorem normalizeLine_no_newline (line : String)
    (h : '\n' ∉ line.data.dropLast) : '\n' ∉ (normalizeLine line).data := by
  have h0 : CleanLine line.data := cleanLine_of_dropLast line.data h
  have h1 : CleanLine (removeDiacritics line).data :=
    cleanLine_map translateChar translateChar_eq_newline (by decide) line.data h0
  have h2 : CleanLine (removeDots (removeDiacritics line)).data :=
    cleanLine_filter (fun c => c != '.') (by decide) _ h1
  have h3 : CleanLine (removeSpaces (removeDots (removeDiacritics line))).data :=
    cleanLine_filter (fun c => c != ' ') (by decide) _ h2
  have h4 : CleanLine
      (encodeAsciiIgnore (removeSpaces (removeDots (removeDiacritics line)))).data :=
    cleanLine_filter (fun c => decide (c.toNat < 128)) (by decide) _ h3
  have h5 : '\n' ∉
      (pyStrip (encodeAsciiIgnore
        (removeSpaces (removeDots (removeDiacritics line))))).data :=
    no_newline_pyStripList _ h4
  intro hm
  obtain ⟨c, hc, hlc⟩ := List.mem_map.1 hm
  have hcs4 : c ∈
      (encodeAsciiIgnore (removeSpaces (removeDots (removeDiacritics line)))).data :=
    pyStrip_subset _ c hc
  have hlt : c.toNat < 128 := by
    have := (List.mem_filter.1 hcs4).2
    exact of_decide_eq_true this
  exact h5 ((toLower_eq_newline c hlt hlc) ▸ hc)

theorem supported_tld_no_newline : ∀ s ∈ supported_tlds, '\n' ∉ s.data := by
  decide

/-- C9: the output sink is opened in append mode and only appended to: the
final file content is exactly the pre-existing content (preserved verbatim,
prior runs included) followed by the writes in order, and every write is the
fully-qualified free domain followed by a single terminating newline — one
newline-terminated line per write. -/
theorem c9_append_only (existing : String) (cfg : Config)
    (t : String → Transport) (lines : List String)
    (hl : ∀ l ∈ lines, '\n' ∉ l.data.dropLast)
    (ht : cfg.tld ∈ supported_tlds) :
    runSink (openForAppend existing) (driverRun cfg t lines) =
      existing ++ strJoin (sinkWrites (driverRun cfg t lines)) ∧
    (∀ w ∈ sinkWrites (driverRun cfg t lines),
      (∃ name, w = name ++ "." ++ cfg.tld ++ "\n") ∧
      w.data.count '\n' = 1 ∧ w.data.getLast? = some '\n') := by
  refine ⟨runSink_eq _ existing, ?_⟩
  intro w hw
  obtain ⟨l, hlm, he⟩ := sinkWrites_driverRun cfg t lines w hw
  have hd : w.data =
      ((normalizeLine l).data ++ ['.'] ++ cfg.tld.data) ++ ['\n'] := by
    rw [he]
    simp [String.data_append]
  refine ⟨⟨normalizeLine l, he⟩, ?_, ?_⟩
  · have hn1 : '\n' ∉ (normalizeLine l).data :=
      normalizeLine_no_newline l (hl l hlm)
    have hn2 : '\n' ∉ cfg.tld.data := supported_tld_no_newline cfg.tld ht
    rw [hd]
    simp [List.count_append, List.count_eq_zero.2 hn1, List.count_eq_zero.2 hn2]
  · rw [hd, List.getLast?_concat]

/-- Witness for C9: a prior-content file, one input line and a free-domain
transport; the final content is the prior content plus the one written
line. -/
theorem c9_witness :
    (∀ l ∈ ["caferene"], '\n' ∉ l.data.dropLast) ∧
    "cz" ∈ supported_tlds ∧
    runSink (openForAppend "prior.cz\n")
        (driverRun ⟨"cz", 1, 18⟩ (fun _ => freeLongTransport) ["caferene"]) =
      "prior.cz\n" ++ strJoin (sinkWrites
        (driverRun ⟨"cz", 1, 18⟩ (fun _ => freeLongTransport) ["caferene"])) :=
  ⟨by decide, by decide,
   (c9_append_only "prior.cz\n" ⟨"cz", 1, 18⟩ (fun _ => freeLongTransport)
      ["caferene"] (by decide) (by decide)).1⟩

/-- Witness for C10 at the concrete command lines with only a help flag. -/
theorem c10_witness :
    (mainRun (.ok [("-h", "")] []) true true []
        (fun _ => registeredTransport)).exitCode = 2 ∧
    (mainRun (.ok [("--help", "")] []) true true []
        (fun _ => registeredTransport)).usagePrinted = true :=
  ⟨((c10_help_exits_two "" [] [] true true []
      (fun _ => registeredTransport)).1).1,
   ((c10_help_exits_two "" [] [] true true []
      (fun _ => registeredTransport)).2).2.1⟩

end CheckWhois
